import Mathlib

/-!
Verification development for the KITTI visualizer state machine
(QtKittiVisualizer.cpp, class KittiVisualizerQt).

Shallow embedding conventions:
* C++ `int` indices and sizes are modelled as `Int`.  The size accessors
  involved in the clamping code return signed integers in the original
  toolkit (`QList::size`, `KittiDataset::getNumberOfFrames`), so the
  comparisons `index >= size` / `index < 0` are plain signed comparisons.
* Point coordinates (C++ `float`) are modelled as `ℚ` inside the state
  machine, which only ever translates points by constant offsets; the
  trigonometric centering math of `showTrackletInCenter` is verified
  separately over `ℝ` (`rotZ` and friends below), and the rotated cloud
  is kept symbolically in the scene as a `SceneGeom.rotatedZCloud` node.
* The retained-mode scene of `pcl::visualization::PCLVisualizer` is a
  list of named objects; `add*` is a no-op when the identifier already
  exists (PCL returns `false` without replacing), `remove*` drops the
  identifier if present.
* External UI side effects (slider ranges, image widget, render-window
  updates, `std::cout`) carry no model state; the three text labels are
  kept because the handlers recompute them.
* `std::vector::at` / `QList::at` lookups are modelled with `getD`
  (total, default on out-of-range); the safety claims show the
  out-of-range branch is unreachable at the relevant call sites, and
  `updateTrackletLabelText` additionally has an `Option`-valued model
  that returns `none` exactly where `at` would throw.
-/

/-- One per-frame pose of a tracklet: translation `tx, ty, tz` and yaw
`rz` (from kitti-devkit `Tracklets::tPose`). -/
structure TPose where
  tx : ℚ
  ty : ℚ
  tz : ℚ
  rz : ℚ
deriving DecidableEq, Inhabited

/-- A tracklet record: object type, box extents `h, w, l`, first frame,
and the per-frame pose list (from kitti-devkit `Tracklets::tTracklet`). -/
structure KittiTracklet where
  objectType : String
  h : ℚ
  w : ℚ
  l : ℚ
  first_frame : Int
  poses : List TPose
deriving DecidableEq, Inhabited

/-- Modelled from the spec: `lastFrame = first_frame + poses.size() - 1`
(the accessor lives in kitti-devkit-raw/tracklets.h, which is not under
src/; spec section 3 states this equation). -/
def lastFrame (t : KittiTracklet) : Int :=
  t.first_frame + t.poses.length - 1

/-- A 3D point; intensity is irrelevant to every claim and omitted. -/
abbrev KittiPoint := ℚ × ℚ × ℚ

/-- A point cloud. -/
abbrev Cloud := List KittiPoint

/-- Geometry stored under a scene identifier.  `rotatedZCloud a pts`
stands for `pts` rotated by angle `a` about the vertical axis: the
numeric rotation leaves ℚ, so it is kept symbolic here and its real
semantics is verified by the `rotZ` lemmas. -/
inductive SceneGeom where
  | cloud (pts : Cloud)
  | cube (center : KittiPoint) (rz : ℚ) (l : ℚ) (w : ℚ) (hgt : ℚ)
  | rotatedZCloud (angle : ℚ) (pts : Cloud)
deriving DecidableEq

/-- The retained-mode scene: named objects in insertion order. -/
abbrev Scene := List (String × SceneGeom)

/-- PCL `addPointCloud` / `addCube`: when the identifier is already
present the call fails (returns false) and the scene is unchanged. -/
def sceneAdd (sc : Scene) (id : String) (g : SceneGeom) : Scene :=
  if sc.any (fun e => decide (e.1 = id)) then sc else sc ++ [(id, g)]

/-- PCL `removeShape` / `removePointCloud`: drop the identifier if
present, no-op otherwise. -/
def sceneRemove (sc : Scene) (id : String) : Scene :=
  sc.filter (fun e => decide (e.1 ≠ id))

/-- The dataset collaborator (`KittiDataset`, not under src/): frame
count, tracklet list, and the two cloud accessors used by the handlers,
kept abstract as functions. -/
structure KittiDataset where
  numberOfFrames : Int
  tracklets : List KittiTracklet
  getPointCloud : Int → Cloud
  getTrackletPointCloud : Cloud → KittiTracklet → Int → Cloud

instance : Inhabited KittiDataset :=
  ⟨⟨0, [], fun _ => [], fun _ _ _ => []⟩⟩

/-- Scene identifier of the i-th bounding box.  The C++ source computes
`"tracklet_box_" + i` where the left operand is a `const char*`, so this
is pointer arithmetic: the identifier is the suffix of the literal
starting at offset `i` (e.g. i = 1 gives "racklet_box_").  Offsets past
the 13-character literal read out of bounds in C++ (undefined); the
model collapses them to the empty string, the value at the terminator. -/
def boxId (i : Nat) : String :=
  String.mk ("tracklet_box_".data.drop i)

/-- Scene identifier of the i-th cropped tracklet cloud, computed by the
same pointer arithmetic on the 17-character literal "cropped_tracklet_". -/
def croppedId (i : Nat) : String :=
  String.mk ("cropped_tracklet_".data.drop i)

/-- The loop body of `KittiVisualizerQt::loadAvailableTracklets`: walk
the dataset tracklets in enumeration order and `push_back` each one
whose `[first_frame, lastFrame]` interval contains `f` onto the member
vector `acc`. -/
def loadAvailableTrackletsFrom (acc : List KittiTracklet)
    (ts : List KittiTracklet) (f : Int) : List KittiTracklet :=
  match ts with
  | [] => acc
  | t :: rest =>
      if t.first_frame ≤ f ∧ lastFrame t ≥ f then
        loadAvailableTrackletsFrom (acc ++ [t]) rest f
      else
        loadAvailableTrackletsFrom acc rest f

/-- The mutable state of the `KittiVisualizerQt` object: the three
navigation indices, the owned dataset, the loaded cloud, the two derived
sequences, the four visibility flags, the scene, and the three labels. -/
structure VisState where
  dataset_index : Int
  frame_index : Int
  tracklet_index : Int
  dataset : KittiDataset
  pointCloud : Cloud
  availableTracklets : List KittiTracklet
  croppedTrackletPointClouds : List Cloud
  pointCloudVisible : Bool
  trackletBoundingBoxesVisible : Bool
  trackletPointsVisible : Bool
  trackletInCenterVisible : Bool
  scene : Scene
  label_dataSet : String
  label_frame : String
  label_tracklet : Option String

/-- `loadPointCloud`: `pointCloud = dataset->getPointCloud(frame_index)`. -/
def loadPointCloud (s : VisState) : VisState :=
  { s with pointCloud := s.dataset.getPointCloud s.frame_index }

/-- Scene effect of `showPointCloud`. -/
def showPointCloudScene (s : VisState) : Scene :=
  sceneAdd s.scene "point_cloud" (.cloud s.pointCloud)

/-- `showPointCloud`: add the raw cloud under the fixed identifier. -/
def showPointCloud (s : VisState) : VisState :=
  { s with scene := showPointCloudScene s }

/-- Scene effect of `hidePointCloud`. -/
def hidePointCloudScene (s : VisState) : Scene :=
  sceneRemove s.scene "point_cloud"

/-- `hidePointCloud`: remove the raw cloud. -/
def hidePointCloud (s : VisState) : VisState :=
  { s with scene := hidePointCloudScene s }

/-- `loadAvailableTracklets`: push the tracklets active at the current
frame onto the member vector (which the request protocol has cleared
just before). -/
def loadAvailableTracklets (s : VisState) : VisState :=
  { s with availableTracklets :=
      loadAvailableTrackletsFrom s.availableTracklets s.dataset.tracklets s.frame_index }

/-- `clearAvailableTracklets`. -/
def clearAvailableTracklets (s : VisState) : VisState :=
  { s with availableTracklets := [] }

/-- The cube geometry `showTrackletBoxes` adds for one tracklet at one
frame: center `(tx, ty, tz + h/2)`, yaw `rz`, extents `(l, w, h)`; the
pose is `poses.at(frame_index - first_frame)` (modelled total). -/
def boxGeomFor (t : KittiTracklet) (f : Int) : SceneGeom :=
  let tpose := t.poses.getD (f - t.first_frame).toNat default
  .cube (tpose.tx, tpose.ty, tpose.tz + t.h / 2) tpose.rz t.l t.w t.h

/-- Scene effect of `showTrackletBoxes`: for each position i of the
active set, add a cube under identifier `boxId i`. -/
def showTrackletBoxesScene (s : VisState) : Scene :=
  (List.range s.availableTracklets.length).foldl
    (fun sc i =>
      sceneAdd sc (boxId i) (boxGeomFor (s.availableTracklets.getD i default) s.frame_index))
    s.scene

/-- `showTrackletBoxes`. -/
def showTrackletBoxes (s : VisState) : VisState :=
  { s with scene := showTrackletBoxesScene s }

/-- Scene effect of `hideTrackletBoxes`: remove `boxId i` for each
position of the (still current) active set. -/
def hideTrackletBoxesScene (s : VisState) : Scene :=
  (List.range s.availableTracklets.length).foldl
    (fun sc i => sceneRemove sc (boxId i)) s.scene

/-- `hideTrackletBoxes`. -/
def hideTrackletBoxes (s : VisState) : VisState :=
  { s with scene := hideTrackletBoxesScene s }

/-- The fixed display offset `(0, 0, 6)` that `loadTrackletPoints`
applies to each cropped cloud. -/
def cropTransform (c : Cloud) : Cloud :=
  c.map (fun p => (p.1, p.2.1, p.2.2 + 6))

/-- `loadTrackletPoints`: for each active tracklet in order, crop the
current cloud to its box (dataset collaborator), apply the display
offset, and `push_back` the result. -/
def loadTrackletPoints (s : VisState) : VisState :=
  { s with croppedTrackletPointClouds :=
      s.croppedTrackletPointClouds ++
        s.availableTracklets.map (fun t =>
          cropTransform (s.dataset.getTrackletPointCloud s.pointCloud t s.frame_index)) }

/-- `clearTrackletPoints`. -/
def clearTrackletPoints (s : VisState) : VisState :=
  { s with croppedTrackletPointClouds := [] }

/-- Scene effect of `showTrackletPoints`: add cropped cloud i under
identifier `croppedId i` (color styling, a pure function of the object
type via `KittiDataset::getColor`, is dropped from the geometry). -/
def showTrackletPointsScene (s : VisState) : Scene :=
  (List.range s.availableTracklets.length).foldl
    (fun sc i =>
      sceneAdd sc (croppedId i) (.cloud (s.croppedTrackletPointClouds.getD i [])))
    s.scene

/-- `showTrackletPoints`. -/
def showTrackletPoints (s : VisState) : VisState :=
  { s with scene := showTrackletPointsScene s }

/-- Scene effect of `hideTrackletPoints`. -/
def hideTrackletPointsScene (s : VisState) : Scene :=
  (List.range s.availableTracklets.length).foldl
    (fun sc i => sceneRemove sc (croppedId i)) s.scene

/-- `hideTrackletPoints`. -/
def hideTrackletPoints (s : VisState) : VisState :=
  { s with scene := hideTrackletPointsScene s }

/-- The translation step of `showTrackletInCenter`: first
`transformPointCloud` call with offset `(-tx, -ty, -(tz + h/2))` and
identity rotation. -/
def centerTranslate (tpose : TPose) (hgt : ℚ) (c : Cloud) : Cloud :=
  c.map (fun p => (p.1 - tpose.tx, p.2.1 - tpose.ty, p.2.2 - (tpose.tz + hgt / 2)))

/-- Scene effect of `showTrackletInCenter` when the active set is
non-empty: crop the selected tracklet, translate by the centering
offset, then rotate by `-rz` about the vertical axis (kept symbolic in
the scene), and add under the fixed identifier. -/
def showTrackletInCenterScene (s : VisState) : Scene :=
  if s.availableTracklets.length ≠ 0 then
    let t := s.availableTracklets.getD s.tracklet_index.toNat default
    let cloudOut := s.dataset.getTrackletPointCloud s.pointCloud t s.frame_index
    let tpose := t.poses.getD (s.frame_index - t.first_frame).toNat default
    sceneAdd s.scene "centered_tracklet"
      (.rotatedZCloud (-tpose.rz) (centerTranslate tpose t.h cloudOut))
  else s.scene

/-- `showTrackletInCenter`. -/
def showTrackletInCenter (s : VisState) : VisState :=
  { s with scene := showTrackletInCenterScene s }

/-- Scene effect of `hideTrackletInCenter` (guarded by a non-empty
active set, as in the source). -/
def hideTrackletInCenterScene (s : VisState) : Scene :=
  if s.availableTracklets.length ≠ 0 then
    sceneRemove s.scene "centered_tracklet"
  else s.scene

/-- `hideTrackletInCenter`. -/
def hideTrackletInCenter (s : VisState) : VisState :=
  { s with scene := hideTrackletInCenterScene s }

/-- Modelled from the spec: the external numeric label of a dataset
(`KittiConfig::getDatasetNumber`, not under src/); spec section 6 only
requires it to be a fixed mapping from the internal 0-based index. -/
def getDatasetNumber (i : Int) : Int := i

/-- `updateDatasetLabel` text. -/
def datasetLabelText (datasetCount : Nat) (s : VisState) : String :=
  "Data set: " ++ toString (s.dataset_index + 1) ++ " of " ++ toString datasetCount
    ++ " [" ++ toString (getDatasetNumber s.dataset_index) ++ "]\n"

/-- `updateDatasetLabel`. -/
def updateDatasetLabel (datasetCount : Nat) (s : VisState) : VisState :=
  { s with label_dataSet := datasetLabelText datasetCount s }

/-- `updateFrameLabel` text. -/
def frameLabelText (s : VisState) : String :=
  "Frame: " ++ toString (s.frame_index + 1) ++ " of " ++ toString s.dataset.numberOfFrames ++ "\n"

/-- `updateFrameLabel`. -/
def updateFrameLabel (s : VisState) : VisState :=
  { s with label_frame := frameLabelText s }

/-- `updateTrackletLabel` text, `Option`-valued: `none` marks exactly
the states in which one of the two `.at(tracklet_index)` accesses
(member vector lookups) would throw `std::out_of_range`. -/
def updateTrackletLabelText (s : VisState) : Option String :=
  if s.availableTracklets.length ≠ 0 then
    if s.tracklet_index < 0 then none
    else
      match s.availableTracklets.get? s.tracklet_index.toNat,
            s.croppedTrackletPointClouds.get? s.tracklet_index.toNat with
      | some t, some c =>
          some ("Tracklet: " ++ toString (s.tracklet_index + 1) ++ " of "
            ++ toString s.availableTracklets.length ++ " (\x22" ++ t.objectType
            ++ "\x22, " ++ toString c.length ++ " points)\n")
      | _, _ => none
  else
    some "Tracklet: 0 of 0\n"

/-- `updateTrackletLabel`. -/
def updateTrackletLabel (s : VisState) : VisState :=
  { s with label_tracklet := updateTrackletLabelText s }

/-- The hide-and-clear prefix shared verbatim by `newDatasetRequested`
and `newFrameRequested`: hide centered view, hide and clear cropped
clouds, hide and clear boxes, hide raw cloud — each hide guarded by its
visibility flag.  The guarded calls only touch the scene, so they are
written as guarded scene updates. -/
def unloadAll (s : VisState) : VisState :=
  let s1 := { s  with scene := if s.trackletInCenterVisible then hideTrackletInCenterScene s else s.scene }
  let s2 := { s1 with scene := if s1.trackletPointsVisible then hideTrackletPointsScene s1 else s1.scene }
  let s3 := clearTrackletPoints s2
  let s4 := { s3 with scene := if s3.trackletBoundingBoxesVisible then hideTrackletBoxesScene s3 else s3.scene }
  let s5 := clearAvailableTracklets s4
  { s5 with scene := if s5.pointCloudVisible then hidePointCloudScene s5 else s5.scene }

/-- The reload suffix shared verbatim by `newDatasetRequested` and
`newFrameRequested`: load and (if visible) show the raw cloud, rebuild
and (if visible) show boxes, rebuild and (if visible) show cropped
clouds, clamp `tracklet_index` against the new active set, then (if
visible) show the centered view. -/
def reloadAll (s : VisState) : VisState :=
  let s1 := loadPointCloud s
  let s2 := { s1 with scene := if s1.pointCloudVisible then showPointCloudScene s1 else s1.scene }
  let s3 := loadAvailableTracklets s2
  let s4 := { s3 with scene := if s3.trackletBoundingBoxesVisible then showTrackletBoxesScene s3 else s3.scene }
  let s5 := loadTrackletPoints s4
  let s6 := { s5 with scene := if s5.trackletPointsVisible then showTrackletPointsScene s5 else s5.scene }
  let ti1 := if s6.tracklet_index ≥ (s6.availableTracklets.length : Int)
             then (s6.availableTracklets.length : Int) - 1 else s6.tracklet_index
  let ti2 := if ti1 < 0 then 0 else ti1
  let s7 := { s6 with tracklet_index := ti2 }
  { s7 with scene := if s7.trackletInCenterVisible then showTrackletInCenterScene s7 else s7.scene }

/-- `newDatasetRequested`: no-op when the requested index equals the
current one; otherwise unload everything, clamp the dataset index into
`[0, datasetCount - 1]`, switch datasets, clamp `frame_index` down to
`frameCount - 1` if it now exceeds the new frame count, reload, and
refresh the labels.  `config` models `KittiConfig::availableDatasets`
together with dataset construction. -/
def newDatasetRequested (config : List KittiDataset) (s : VisState) (value : Int) : VisState :=
  if s.dataset_index = value then s
  else
    let s1 := unloadAll s
    let di1 := if value ≥ (config.length : Int) then (config.length : Int) - 1 else value
    let di2 := if di1 < 0 then 0 else di1
    let s2 := { s1 with dataset_index := di2, dataset := config.getD di2.toNat default }
    let s3 := { s2 with frame_index :=
                  if s2.frame_index ≥ s2.dataset.numberOfFrames
                  then s2.dataset.numberOfFrames - 1 else s2.frame_index }
    let s4 := reloadAll s3
    let s5 := updateDatasetLabel config.length s4
    let s6 := updateFrameLabel s5
    updateTrackletLabel s6

/-- `newFrameRequested`: no-op when the requested index equals the
current one; otherwise unload everything, clamp the frame index into
`[0, frameCount - 1]`, reload, and refresh the frame and tracklet
labels. -/
def newFrameRequested (s : VisState) (value : Int) : VisState :=
  if s.frame_index = value then s
  else
    let s1 := unloadAll s
    let fi1 := if value ≥ s1.dataset.numberOfFrames then s1.dataset.numberOfFrames - 1 else value
    let fi2 := if fi1 < 0 then 0 else fi1
    let s2 := { s1 with frame_index := fi2 }
    let s3 := reloadAll s2
    let s4 := updateFrameLabel s3
    updateTrackletLabel s4

/-- `newTrackletRequested`: no-op when the requested index equals the
current one; otherwise hide the centered view (if visible), clamp the
tracklet index against the current active set, re-show the centered
view (if visible), and refresh the tracklet label. -/
def newTrackletRequested (s : VisState) (value : Int) : VisState :=
  if s.tracklet_index = value then s
  else
    let s1 := { s with scene := if s.trackletInCenterVisible then hideTrackletInCenterScene s else s.scene }
    let ti1 := if value ≥ (s1.availableTracklets.length : Int)
               then (s1.availableTracklets.length : Int) - 1 else value
    let ti2 := if ti1 < 0 then 0 else ti1
    let s2 := { s1 with tracklet_index := ti2 }
    let s3 := { s2 with scene := if s2.trackletInCenterVisible then showTrackletInCenterScene s2 else s2.scene }
    updateTrackletLabel s3

/-- `showFramePointCloudToggled`: set the flag, then show or hide the
raw-cloud layer. -/
def showFramePointCloudToggled (s : VisState) (value : Bool) : VisState :=
  let s1 := { s with pointCloudVisible := value }
  if s1.pointCloudVisible then showPointCloud s1 else hidePointCloud s1

/-- `showTrackletBoundingBoxesToggled`. -/
def showTrackletBoundingBoxesToggled (s : VisState) (value : Bool) : VisState :=
  let s1 := { s with trackletBoundingBoxesVisible := value }
  if s1.trackletBoundingBoxesVisible then showTrackletBoxes s1 else hideTrackletBoxes s1

/-- `showTrackletPointCloudsToggled`. -/
def showTrackletPointCloudsToggled (s : VisState) (value : Bool) : VisState :=
  let s1 := { s with trackletPointsVisible := value }
  if s1.trackletPointsVisible then showTrackletPoints s1 else hideTrackletPoints s1

/-- `showTrackletInCenterToggled`. -/
def showTrackletInCenterToggled (s : VisState) (value : Bool) : VisState :=
  let s1 := { s with trackletInCenterVisible := value }
  if s1.trackletInCenterVisible then showTrackletInCenter s1 else hideTrackletInCenter s1

/-!
Real-valued semantics of the centering transform of
`showTrackletInCenter` (the C++ floats are modelled as reals).
-/

/-- Rotation by angle `θ` about the vertical (z) axis, the action of the
quaternion `Eigen::AngleAxisf(θ, UnitZ)` on a point. -/
noncomputable def rotZ (θ : ℝ) (p : ℝ × ℝ × ℝ) : ℝ × ℝ × ℝ :=
  (p.1 * Real.cos θ - p.2.1 * Real.sin θ,
   p.1 * Real.sin θ + p.2.1 * Real.cos θ,
   p.2.2)

/-- Translation of a point by an offset vector;
`pcl::transformPointCloud` with identity rotation applies exactly this
to every point. -/
noncomputable def translateBy (o : ℝ × ℝ × ℝ) (p : ℝ × ℝ × ℝ) : ℝ × ℝ × ℝ :=
  (p.1 + o.1, p.2.1 + o.2.1, p.2.2 + o.2.2)

/-- The offset of the first `transformPointCloud` call of
`showTrackletInCenter`: `(-tx, -ty, -(tz + h/2))`. -/
noncomputable def centeringOffset (tx ty tz hgt : ℝ) : ℝ × ℝ × ℝ :=
  (-tx, -ty, -(tz + hgt / 2))

/-- The per-point action of the two `transformPointCloud` calls of
`showTrackletInCenter`, in source order: first translate by the
centering offset (identity rotation), then rotate by `-rz` about the
vertical axis (zero offset). -/
noncomputable def showTrackletInCenterTransform (tx ty tz rz hgt : ℝ) (p : ℝ × ℝ × ℝ) : ℝ × ℝ × ℝ :=
  rotZ (-rz) (translateBy (centeringOffset tx ty tz hgt) p)

/-!
Concrete sample data used by the witness theorems.
-/

/-- A sample tracklet: active on frames 5 and 6. -/
def sampleTracklet : KittiTracklet :=
  { objectType := "Car", h := 2, w := 1, l := 4, first_frame := 5,
    poses := [⟨1, 2, 0, 0⟩, ⟨2, 3, 0, 0⟩] }

/-- A sample dataset with ten frames and one tracklet. -/
def sampleDataset : KittiDataset :=
  { numberOfFrames := 10, tracklets := [sampleTracklet],
    getPointCloud := fun _ => [(0, 0, 0)],
    getTrackletPointCloud := fun _ _ _ => [(1, 1, 1)] }

/-- A second sample dataset with three frames and no tracklets. -/
def sampleDataset2 : KittiDataset :=
  { numberOfFrames := 3, tracklets := [],
    getPointCloud := fun _ => [],
    getTrackletPointCloud := fun _ _ _ => [] }

/-- The sample dataset collection. -/
def sampleConfig : List KittiDataset := [sampleDataset, sampleDataset2]

/-- A sample visualizer state sitting on frame 5 of the sample dataset,
with the derived sequences rebuilt for that frame. -/
def sampleState : VisState :=
  { dataset_index := 0, frame_index := 5, tracklet_index := 0,
    dataset := sampleDataset,
    pointCloud := [(0, 0, 0)],
    availableTracklets := [sampleTracklet],
    croppedTrackletPointClouds := [[(1, 1, 7)]],
    pointCloudVisible := true, trackletBoundingBoxesVisible := true,
    trackletPointsVisible := true, trackletInCenterVisible := true,
    scene := [], label_dataSet := "", label_frame := "", label_tracklet := none }

/-- The clamp described by the spec: values `≥ n` go to `n - 1`, values
`< 0` go to `0`, values already in `[0, n - 1]` are unchanged. -/
def clampSpec (v n : Int) : Int :=
  if v ≥ n then n - 1 else if v < 0 then 0 else v

/-- The spec invariant on the selection: `tracklet_index` is "none"
(represented by the Active Tracklet Set being empty, which makes every
consumer skip the index) or a valid position into the set. -/
def trackletIndexInv (s : VisState) : Prop :=
  s.availableTracklets = [] ∨
    (0 ≤ s.tracklet_index ∧ s.tracklet_index < (s.availableTracklets.length : Int))

/-- The spec invariant tying the two derived sequences together: the
cropped-cloud sequence has exactly one entry per active tracklet. -/
def lengthInv (s : VisState) : Prop :=
  s.croppedTrackletPointClouds.length = s.availableTracklets.length

/-!
Helper lemmas.
-/

/-- The `loadAvailableTracklets` loop appends, to the accumulated
vector, exactly the filter of the scanned tracklets. -/
theorem loadAvailableTrackletsFrom_eq_filter (ts : List KittiTracklet)
    (acc : List KittiTracklet) (f : Int) :
    loadAvailableTrackletsFrom acc ts f
      = acc ++ ts.filter (fun t => decide (t.first_frame ≤ f ∧ lastFrame t ≥ f)) := by
  induction ts generalizing acc with
  | nil => simp [loadAvailableTrackletsFrom]
  | cons t rest ih =>
      by_cases h : t.first_frame ≤ f ∧ lastFrame t ≥ f
      · rw [loadAvailableTrackletsFrom, if_pos h, ih, List.filter_cons,
          if_pos (by simpa using h)]
        simp
      · rw [loadAvailableTrackletsFrom, if_neg h, ih, List.filter_cons,
          if_neg (by simpa using h)]

/-- The tracklet-index clamp of the request handlers establishes the
selection invariant for any prior index and any active set. -/
theorem clamp_tracklet_inv (A : List KittiTracklet) (ti : Int) :
    A = [] ∨
      (0 ≤ (if (if ti ≥ (A.length : Int) then (A.length : Int) - 1 else ti) < 0 then 0
            else if ti ≥ (A.length : Int) then (A.length : Int) - 1 else ti) ∧
       (if (if ti ≥ (A.length : Int) then (A.length : Int) - 1 else ti) < 0 then 0
        else if ti ≥ (A.length : Int) then (A.length : Int) - 1 else ti)
         < (A.length : Int)) := by
  by_cases hA : A = []
  · exact Or.inl hA
  · right
    have hpos : 0 < A.length := List.length_pos.mpr hA
    constructor <;> split_ifs <;> omega

/-- A frame request never changes any of the four visibility flags. -/
theorem newFrameRequested_flags (s : VisState) (v : Int) :
    (newFrameRequested s v).pointCloudVisible = s.pointCloudVisible ∧
    (newFrameRequested s v).trackletBoundingBoxesVisible = s.trackletBoundingBoxesVisible ∧
    (newFrameRequested s v).trackletPointsVisible = s.trackletPointsVisible ∧
    (newFrameRequested s v).trackletInCenterVisible = s.trackletInCenterVisible := by
  by_cases h : s.frame_index = v
  · simp [newFrameRequested, h]
  · simp only [newFrameRequested, if_neg h]
    exact ⟨rfl, rfl, rfl, rfl⟩

/-!
Claim theorems.
-/

/-- C1: for every frame index f, the active-tracklet rebuild
(`loadAvailableTracklets`, starting from the cleared vector) produces
exactly the tracklets t with `first_frame ≤ f ≤ lastFrame`, in the
dataset's original tracklet enumeration order (it equals the
order-preserving filter of the enumeration). -/
theorem C1_loadAvailableTracklets_exactly_active (ts : List KittiTracklet) (f : Int) :
    loadAvailableTrackletsFrom [] ts f
      = ts.filter (fun t => decide (t.first_frame ≤ f ∧ f ≤ lastFrame t)) ∧
    ∀ t : KittiTracklet, t ∈ loadAvailableTrackletsFrom [] ts f ↔
      t ∈ ts ∧ t.first_frame ≤ f ∧ f ≤ lastFrame t := by
  have h := loadAvailableTrackletsFrom_eq_filter ts [] f
  refine ⟨by simpa using h, fun t => ?_⟩
  rw [h]
  simp [List.mem_filter]

/-- C9: every tracklet selected into the Active Tracklet Set for frame
f satisfies `0 ≤ f - first_frame < poses.size()`, so the pose lookup
`poses.at(frame_index - first_frame)` performed by `showTrackletBoxes`
and `showTrackletInCenter` cannot reach its out-of-range branch. -/
theorem C9_pose_lookup_in_range (ts : List KittiTracklet) (f : Int) (t : KittiTracklet)
    (hm : t ∈ loadAvailableTrackletsFrom [] ts f) :
    0 ≤ f - t.first_frame ∧ (f - t.first_frame).toNat < t.poses.length := by
  rw [loadAvailableTrackletsFrom_eq_filter, List.nil_append, List.mem_filter] at hm
  have h2 := of_decide_eq_true hm.2
  unfold lastFrame at h2
  omega

/-- C9 witness: the sample tracklet (frames 5 to 6) is in the active
set of frame 5 and its pose index is in range there. -/
theorem C9_pose_lookup_in_range_witness :
    sampleTracklet ∈ loadAvailableTrackletsFrom [] [sampleTracklet] 5 ∧
      (0 ≤ 5 - sampleTracklet.first_frame ∧
       (5 - sampleTracklet.first_frame).toNat < sampleTracklet.poses.length) :=
  ⟨by decide, C9_pose_lookup_in_range [sampleTracklet] 5 sampleTracklet (by decide)⟩

/-- C7: requesting the currently held dataset, frame, or tracklet index
returns before touching anything: the whole visualizer state (indices,
dataset, derived sequences, labels, and scene) is unchanged. -/
theorem C7_requesting_current_index_is_noop (config : List KittiDataset) (s : VisState) :
    newDatasetRequested config s s.dataset_index = s ∧
    newFrameRequested s s.frame_index = s ∧
    newTrackletRequested s s.tracklet_index = s := by
  refine ⟨?_, ?_, ?_⟩ <;>
    simp [newDatasetRequested, newFrameRequested, newTrackletRequested]

/-- C6: the identifier expressions are C pointer arithmetic, not string
concatenation: position i names the suffix of the literal starting at
offset i.  Positions beyond the literal length are not distinct (and in
C++ read past the literal): positions 13 and 14 receive the same
bounding-box identifier, and positions 17 and 18 the same cropped-cloud
identifier, refuting per-position distinctness; the first two conjuncts
show the actual identifiers produced for positions 0 and 1. -/
theorem C6_positional_identifier_collision :
    boxId 0 = "tracklet_box_" ∧ boxId 1 = "racklet_box_" ∧
    boxId 13 = boxId 14 ∧ (13 : Nat) ≠ 14 ∧ croppedId 17 = croppedId 18 := by
  refine ⟨rfl, rfl, rfl, by decide, rfl⟩

/-- C5: the centering transform (translate by `(-tx, -ty, -(tz + h/2))`
first, then rotate by `-rz` about the vertical axis, exactly the
composition of the two `transformPointCloud` calls of
`showTrackletInCenter`) maps the box center `(tx, ty, tz + h/2)` to the
world origin; composing the `-rz` rotation with the box's own `rz`
rotation is the identity on every point (the heading is canonicalized to
zero); and the code's two-step sequence is definitionally the
translate-first, rotate-second composition. -/
theorem C5_centering_transform (tx ty tz rz hgt : ℝ) (p : ℝ × ℝ × ℝ) :
    showTrackletInCenterTransform tx ty tz rz hgt (tx, ty, tz + hgt / 2) = (0, 0, 0) ∧
    rotZ (-rz) (rotZ rz p) = p ∧
    showTrackletInCenterTransform tx ty tz rz hgt p
      = rotZ (-rz) (translateBy (centeringOffset tx ty tz hgt) p) := by
  refine ⟨?_, ?_, rfl⟩
  · simp only [showTrackletInCenterTransform, rotZ, translateBy, centeringOffset,
      Prod.mk.injEq]
    refine ⟨by ring_nf, by ring_nf, by ring⟩
  · obtain ⟨x, y, z⟩ := p
    have hsc := Real.sin_sq_add_cos_sq rz
    simp only [rotZ, Real.cos_neg, Real.sin_neg, Prod.mk.injEq]
    refine ⟨by linear_combination x * hsc, by linear_combination y * hsc, trivial⟩

/-- C2: for a requested dataset index v different from the current one,
`newDatasetRequested` sets `dataset_index` to v clamped into
`[0, datasetCount - 1]` (v ≥ count gives count - 1, v < 0 gives 0),
switches to the dataset at that clamped index, and when the previously
current `frame_index` is ≥ the new dataset's frame count it sets
`frame_index` to `frameCount - 1` (otherwise `frame_index` is kept).
The dataset collection is assumed non-empty, as in any run that
survives the constructor. -/
theorem C2_newDatasetRequested_clamps (config : List KittiDataset) (s : VisState)
    (v : Int) (hlen : 0 < config.length) (hne : s.dataset_index ≠ v) :
    (newDatasetRequested config s v).dataset_index = clampSpec v config.length ∧
    (newDatasetRequested config s v).dataset
      = config.getD (clampSpec v config.length).toNat default ∧
    (s.frame_index ≥ (config.getD (clampSpec v config.length).toNat default).numberOfFrames →
      (newDatasetRequested config s v).frame_index
        = (config.getD (clampSpec v config.length).toNat default).numberOfFrames - 1) ∧
    (s.frame_index < (config.getD (clampSpec v config.length).toNat default).numberOfFrames →
      (newDatasetRequested config s v).frame_index = s.frame_index) := by
  have hclamp : (if (if v ≥ (config.length : Int) then (config.length : Int) - 1 else v) < 0
        then 0 else if v ≥ (config.length : Int) then (config.length : Int) - 1 else v)
      = clampSpec v config.length := by
    unfold clampSpec
    split_ifs <;> omega
  have huf : (unloadAll s).frame_index = s.frame_index := rfl
  simp only [newDatasetRequested, if_neg hne]
  refine ⟨by simp only [hclamp]; rfl, by simp only [hclamp]; rfl, ?_, ?_⟩ <;>
    · intro hf
      show (if _ ≥ _ then _ else _) = _
      simp only [hclamp, huf] at *
      split_ifs <;> first | rfl | omega

/-- C2 witness: switching from dataset 0 to requested index 5 with two
datasets clamps to index 1; the sample frame index 5 exceeds the second
dataset's 3 frames, so it is clamped as well. -/
theorem C2_newDatasetRequested_clamps_witness :
    0 < sampleConfig.length ∧ sampleState.dataset_index ≠ 5 ∧
      ((newDatasetRequested sampleConfig sampleState 5).dataset_index
          = clampSpec 5 sampleConfig.length ∧
       (newDatasetRequested sampleConfig sampleState 5).dataset
          = sampleConfig.getD (clampSpec 5 sampleConfig.length).toNat default ∧
       (sampleState.frame_index
            ≥ (sampleConfig.getD (clampSpec 5 sampleConfig.length).toNat default).numberOfFrames →
          (newDatasetRequested sampleConfig sampleState 5).frame_index
            = (sampleConfig.getD (clampSpec 5 sampleConfig.length).toNat default).numberOfFrames - 1) ∧
       (sampleState.frame_index
            < (sampleConfig.getD (clampSpec 5 sampleConfig.length).toNat default).numberOfFrames →
          (newDatasetRequested sampleConfig sampleState 5).frame_index
            = sampleState.frame_index)) :=
  ⟨by decide, by decide,
    C2_newDatasetRequested_clamps sampleConfig sampleState 5 (by decide) (by decide)⟩

/-- C3: after any completed dataset, frame, or tracklet request from a
state satisfying the selection invariant, `tracklet_index` is again
either "none" (the Active Tracklet Set is empty, so every consumer
ignores the index) or a valid position into the set. -/
theorem C3_tracklet_index_valid_after_requests (config : List KittiDataset) (s : VisState)
    (v1 v2 v3 : Int) (hs : trackletIndexInv s) :
    trackletIndexInv (newDatasetRequested config s v1) ∧
    trackletIndexInv (newFrameRequested s v2) ∧
    trackletIndexInv (newTrackletRequested s v3) := by
  refine ⟨?_, ?_, ?_⟩
  · by_cases h : s.dataset_index = v1
    · simpa [newDatasetRequested, h] using hs
    · simp only [newDatasetRequested, if_neg h]
      exact clamp_tracklet_inv _ _
  · by_cases h : s.frame_index = v2
    · simpa [newFrameRequested, h] using hs
    · simp only [newFrameRequested, if_neg h]
      exact clamp_tracklet_inv _ _
  · by_cases h : s.tracklet_index = v3
    · simpa [newTrackletRequested, h] using hs
    · simp only [newTrackletRequested, if_neg h]
      exact clamp_tracklet_inv _ _

/-- C3 witness: from the sample state (one active tracklet, index 0)
the invariant holds again after a dataset request, a frame request, and
a tracklet request. -/
theorem C3_tracklet_index_valid_after_requests_witness :
    trackletIndexInv sampleState ∧
      (trackletIndexInv (newDatasetRequested sampleConfig sampleState 1) ∧
       trackletIndexInv (newFrameRequested sampleState 6) ∧
       trackletIndexInv (newTrackletRequested sampleState 2)) :=
  have hs : trackletIndexInv sampleState := Or.inr (by decide)
  ⟨hs, C3_tracklet_index_valid_after_requests sampleConfig sampleState 1 6 2 hs⟩

/-- C4: dataset and frame requests keep the cropped-cloud sequence
index-aligned with the Active Tracklet Set — both are cleared and then
rebuilt with exactly one cropped cloud per active tracklet — and a
tracklet request touches neither sequence. -/
theorem C4_cropped_length_matches_active (config : List KittiDataset) (s : VisState)
    (v1 v2 v3 : Int) (hs : lengthInv s) :
    lengthInv (newDatasetRequested config s v1) ∧
    lengthInv (newFrameRequested s v2) ∧
    (newTrackletRequested s v3).availableTracklets = s.availableTracklets ∧
    (newTrackletRequested s v3).croppedTrackletPointClouds
      = s.croppedTrackletPointClouds := by
  refine ⟨?_, ?_, ?_, ?_⟩
  · by_cases h : s.dataset_index = v1
    · simpa [newDatasetRequested, h] using hs
    · simp only [newDatasetRequested, if_neg h]
      show (List.map _ _).length = _
      exact List.length_map _ _
  · by_cases h : s.frame_index = v2
    · simpa [newFrameRequested, h] using hs
    · simp only [newFrameRequested, if_neg h]
      show (List.map _ _).length = _
      exact List.length_map _ _
  · by_cases h : s.tracklet_index = v3
    · simp [newTrackletRequested, h]
    · simp only [newTrackletRequested, if_neg h]
      rfl
  · by_cases h : s.tracklet_index = v3
    · simp [newTrackletRequested, h]
    · simp only [newTrackletRequested, if_neg h]
      rfl

/-- C4 witness: the sample state satisfies the length invariant, and it
is preserved by a dataset request, a frame request, and a tracklet
request from there. -/
theorem C4_cropped_length_matches_active_witness :
    lengthInv sampleState ∧
      (lengthInv (newDatasetRequested sampleConfig sampleState 1) ∧
       lengthInv (newFrameRequested sampleState 6) ∧
       (newTrackletRequested sampleState 2).availableTracklets
          = sampleState.availableTracklets ∧
       (newTrackletRequested sampleState 2).croppedTrackletPointClouds
          = sampleState.croppedTrackletPointClouds) :=
  have hs : lengthInv sampleState := rfl
  ⟨hs, C4_cropped_length_matches_active sampleConfig sampleState 1 6 2 hs⟩

/-- Flags are preserved by any sequence of frame requests (helper for
the layer-toggle claim). -/
theorem foldl_newFrameRequested_flags (vs : List Int) (s : VisState) :
    (vs.foldl newFrameRequested s).pointCloudVisible = s.pointCloudVisible ∧
    (vs.foldl newFrameRequested s).trackletBoundingBoxesVisible
      = s.trackletBoundingBoxesVisible ∧
    (vs.foldl newFrameRequested s).trackletPointsVisible = s.trackletPointsVisible ∧
    (vs.foldl newFrameRequested s).trackletInCenterVisible = s.trackletInCenterVisible := by
  induction vs generalizing s with
  | nil => exact ⟨rfl, rfl, rfl, rfl⟩
  | cons v rest ih =>
      have h := newFrameRequested_flags s v
      have h2 := ih (newFrameRequested s v)
      simp only [List.foldl_cons]
      exact ⟨h2.1.trans h.1, (h2.2.1).trans h.2.1,
             (h2.2.2.1).trans h.2.2.1, (h2.2.2.2).trans h.2.2.2⟩

/-- C8: each layer-visibility toggle handler changes only that layer's
flag and the scene — the three indices, the owned dataset, the loaded
cloud, the derived sequences, the labels, and the other three flags are
untouched (this is what each record equation asserts) — and each of the
four flags is preserved unchanged across any sequence of frame-change
requests. -/
theorem C8_toggles_only_flag_and_scene (s : VisState) (b : Bool) (vs : List Int) :
    showFramePointCloudToggled s b
      = { s with pointCloudVisible := b,
                 scene := (showFramePointCloudToggled s b).scene } ∧
    showTrackletBoundingBoxesToggled s b
      = { s with trackletBoundingBoxesVisible := b,
                 scene := (showTrackletBoundingBoxesToggled s b).scene } ∧
    showTrackletPointCloudsToggled s b
      = { s with trackletPointsVisible := b,
                 scene := (showTrackletPointCloudsToggled s b).scene } ∧
    showTrackletInCenterToggled s b
      = { s with trackletInCenterVisible := b,
                 scene := (showTrackletInCenterToggled s b).scene } ∧
    (vs.foldl newFrameRequested s).pointCloudVisible = s.pointCloudVisible ∧
    (vs.foldl newFrameRequested s).trackletBoundingBoxesVisible
      = s.trackletBoundingBoxesVisible ∧
    (vs.foldl newFrameRequested s).trackletPointsVisible = s.trackletPointsVisible ∧
    (vs.foldl newFrameRequested s).trackletInCenterVisible = s.trackletInCenterVisible := by
  have hf := foldl_newFrameRequested_flags vs s
  cases b <;>
    exact ⟨rfl, rfl, rfl, rfl, hf.1, hf.2.1, hf.2.2.1, hf.2.2.2⟩

/-- C10: under the two reachable-state invariants (sequence lengths
aligned, selection index valid or set empty), `updateTrackletLabel`
cannot hit the out-of-range branch of its two `at(tracklet_index)`
accesses when the Active Tracklet Set is non-empty, and with an empty
set it produces the "0 of 0" label without any indexed access. -/
theorem C10_updateTrackletLabel_safe (s : VisState)
    (h1 : lengthInv s) (h2 : trackletIndexInv s) :
    (s.availableTracklets ≠ [] → (updateTrackletLabelText s).isSome = true) ∧
    (s.availableTracklets = [] → updateTrackletLabelText s = some "Tracklet: 0 of 0\n") := by
  constructor
  · intro hne
    rcases h2 with hA | ⟨h0, hlt⟩
    · exact absurd hA hne
    · have hlen : s.tracklet_index.toNat < s.availableTracklets.length := by omega
      have hlen2 : s.tracklet_index.toNat < s.croppedTrackletPointClouds.length := by
        unfold lengthInv at h1; omega
      unfold updateTrackletLabelText
      rw [if_pos (show s.availableTracklets.length ≠ 0 from
            fun hc => hne (List.length_eq_zero.mp hc)),
          if_neg (not_lt.mpr h0)]
      cases hg1 : s.availableTracklets.get? s.tracklet_index.toNat with
      | none => exact absurd (List.get?_eq_none.mp hg1) (by omega)
      | some t =>
          cases hg2 : s.croppedTrackletPointClouds.get? s.tracklet_index.toNat with
          | none => exact absurd (List.get?_eq_none.mp hg2) (by omega)
          | some c => rfl
  · intro hA
    unfold updateTrackletLabelText
    rw [if_neg (by simp [hA])]

/-- C10 witness: the sample state (one active tracklet, aligned
sequences, index 0) satisfies both invariants and its tracklet label is
produced without hitting an out-of-range access. -/
theorem C10_updateTrackletLabel_safe_witness :
    lengthInv sampleState ∧ trackletIndexInv sampleState ∧
      ((sampleState.availableTracklets ≠ [] →
          (updateTrackletLabelText sampleState).isSome = true) ∧
       (sampleState.availableTracklets = [] →
          updateTrackletLabelText sampleState = some "Tracklet: 0 of 0\n")) :=
  have h1 : lengthInv sampleState := rfl
  have h2 : trackletIndexInv sampleState := Or.inr (by decide)
  ⟨h1, h2, C10_updateTrackletLabel_safe sampleState h1 h2⟩
